import Mathlib

/-!
Shallow embedding of the better-budget-tracker repository (utils.py,
goal_tracker.py, src/better_budget_tracker/budget.py, main.py) together
with proofs about the embedded operations.

Monetary amounts are modelled as rationals, SQLite rows as Lean
structures, tables as lists of rows, and fallible Python code as
functions into `Except`.  SQLite TEXT comparison (used for the date
filters) is modelled as lexicographic comparison of the UTF-8 strings,
which agrees with the BINARY collation on the ASCII date strings used
throughout the program.
-/

namespace BudgetTracker

/-! ## Characters and strings: Python / SQLite primitives -/

/-- Characters matched by Python's regex `\s` (Unicode whitespace) for the
character set relevant to amount strings. -/
def isPySpace (c : Char) : Bool :=
  c.toNat == 9 || c.toNat == 10 || c.toNat == 11 || c.toNat == 12 || c.toNat == 13 ||
  c.toNat == 28 || c.toNat == 29 || c.toNat == 30 || c.toNat == 31 || c.toNat == 32 ||
  c.toNat == 0x85 || c.toNat == 0xa0 || c.toNat == 0x1680 ||
  (0x2000 ≤ c.toNat && c.toNat ≤ 0x200a) ||
  c.toNat == 0x2028 || c.toNat == 0x2029 || c.toNat == 0x202f ||
  c.toNat == 0x205f || c.toNat == 0x3000

/-- Python `str.strip()`: drop leading and trailing whitespace. -/
def pyStrip (s : String) : String :=
  ⟨((s.data.dropWhile isPySpace).reverse.dropWhile isPySpace).reverse⟩

/-- A character removed by `re.sub(r'[₹$€£¥\s,]', '', ...)` in utils.py
(`validate_amount` line 26, `parse_amount` line 53). -/
def isStrippedChar (c : Char) : Bool :=
  c == '₹' || c == '$' || c == '€' || c == '£' || c == '¥' || c == ',' || isPySpace c

/-- The cleaning step of utils.py: strip the input, then delete every
currency symbol, whitespace character and comma, wherever it occurs. -/
def cleanAmount (s : String) : String :=
  ⟨(pyStrip s).data.filter (fun c => !(isStrippedChar c))⟩

/-- The natural number denoted by a list of decimal digit characters. -/
def natOfDigits (ds : List Char) : Nat :=
  ds.foldl (fun a c => a * 10 + (c.toNat - 48)) 0

/-- Read an optional leading sign, as Python's float parser does. -/
def readSign (cs : List Char) : Bool × List Char :=
  match cs with
  | [] => (false, [])
  | c :: r => if c = '-' then (true, r) else if c = '+' then (false, r) else (false, c :: r)

/-- Finish parsing a Python float literal: after the mantissa either the
input ends or an exponent part `e`/`E`, optional sign, digits follows. -/
def parseExp (mant : ℚ) (cs : List Char) : Option ℚ :=
  match cs with
  | [] => some mant
  | c :: rest =>
    if c = 'e' ∨ c = 'E' then
      let sr := readSign rest
      let ed := sr.2.takeWhile Char.isDigit
      let rest3 := sr.2.dropWhile Char.isDigit
      if ed = [] ∨ rest3 ≠ [] then none
      else if sr.1 then some (mant / 10 ^ natOfDigits ed)
      else some (mant * 10 ^ natOfDigits ed)
    else none

/-- Core of CPython's `float(str)` on a stripped character list:
optional sign, then `digits [. digits]` with at least one mantissa digit,
then an optional exponent.  (The special forms `inf`/`nan` and digit
underscores are outside the inputs considered in this development.) -/
def pyFloatCore (cs : List Char) : Option ℚ :=
  let sg := readSign cs
  let sgn : ℚ := if sg.1 then -1 else 1
  let ip := sg.2.takeWhile Char.isDigit
  let cs2 := sg.2.dropWhile Char.isDigit
  match cs2 with
  | '.' :: cs3 =>
    let fp := cs3.takeWhile Char.isDigit
    let cs4 := cs3.dropWhile Char.isDigit
    if ip = [] ∧ fp = [] then none
    else parseExp (sgn * ((natOfDigits ip : ℚ) + (natOfDigits fp : ℚ) / 10 ^ fp.length)) cs4
  | _ => if ip = [] then none else parseExp (sgn * (natOfDigits ip : ℚ)) cs2

/-- CPython `float(str)` (which itself ignores surrounding whitespace). -/
def pyFloat (s : String) : Option ℚ :=
  pyFloatCore (pyStrip s).data

/-- The two `ValueError`s raised by `parse_amount` in utils.py. -/
inductive AmountError where
  | emptyAmount
  | invalidFormat (input : String)
  deriving DecidableEq, Repr

/-- Embedding of `parse_amount` from utils.py lines 36-58. -/
def parse_amount (amount_input : String) : Except AmountError ℚ :=
  if amount_input = "" then .error .emptyAmount
  else
    match pyFloat (cleanAmount amount_input) with
    | some v => .ok v
    | none => .error (.invalidFormat amount_input)

/-- Embedding of `validate_amount` from utils.py lines 13-33 (string branch). -/
def validate_amount (amount : String) : Bool :=
  match pyFloat (cleanAmount amount) with
  | some v => decide (0 ≤ v)
  | none => false

/-! ## goal_tracker.py -/

/-- The `SavingsGoal` dataclass (goal_tracker.py lines 15-26).  Stored rows
carry `id = some n`; a fresh in-memory goal may have `id = none`. -/
structure SavingsGoal where
  id : Option Nat := none
  name : String := ""
  target_amount : ℚ := 0
  current_amount : ℚ := 0
  target_date : String := ""
  category : String := ""
  description : String := ""
  is_completed : Bool := false
  created_date : String := ""
  deriving DecidableEq, Repr

/-- The `ValueError`s raised by `GoalTracker.update_goal` / `add_progress`. -/
inductive GoalError where
  | missingId      -- "Goal ID is required for update"
  | invalidAmount  -- "Progress amount must be positive"
  | goalNotFound   -- "Goal not found"
  deriving DecidableEq, Repr

/-- Embedding of `GoalTracker.get_goal_by_id` (goal_tracker.py lines 165-188):
`SELECT * FROM savings_goals WHERE id = ?`, first row or `None`. -/
def get_goal_by_id (goal_id : Nat) (db : List SavingsGoal) : Option SavingsGoal :=
  db.find? (fun g => decide (g.id = some goal_id))

/-- Embedding of `GoalTracker.update_goal` (goal_tracker.py lines 190-225).  Python's
`if not goal.id` is true for `None` and for `0`; the SQL `UPDATE` rewrites
every field except `id` and `created_date` on rows matching the id, and
the function returns `cursor.rowcount > 0`. -/
def update_goal (goal : SavingsGoal) (db : List SavingsGoal) :
    Except GoalError Bool × List SavingsGoal :=
  match goal.id with
  | none => (.error .missingId, db)
  | some gid =>
    if gid = 0 then (.error .missingId, db)
    else
      let db2 := db.map fun r =>
        if r.id = some gid then
          { r with
            name := goal.name,
            target_amount := goal.target_amount,
            current_amount := goal.current_amount,
            target_date := goal.target_date,
            category := goal.category,
            description := goal.description,
            is_completed := goal.is_completed }
        else r
      let n := db.countP fun r => decide (r.id = some gid)
      (.ok (decide (0 < n)), db2)

/-- Embedding of `GoalTracker.add_progress` (goal_tracker.py lines 239-264). -/
def add_progress (goal_id : Nat) (amount : ℚ) (db : List SavingsGoal) :
    Except GoalError Bool × List SavingsGoal :=
  if amount ≤ 0 then (.error .invalidAmount, db)
  else
    match get_goal_by_id goal_id db with
    | none => (.error .goalNotFound, db)
    | some goal =>
      let c := goal.current_amount + amount
      let goal2 :=
        if goal.target_amount ≤ c then
          { goal with current_amount := goal.target_amount, is_completed := true }
        else { goal with current_amount := c }
      update_goal goal2 db

/-! ## budget.py: rows and database -/

/-- The `IncomeEntry` dataclass as stored in the `income` table. -/
structure IncomeEntry where
  id : Nat
  date : String
  source : String
  amount : ℚ
  description : String := ""
  «alias» : String := ""
  deriving DecidableEq, Repr

/-- The `ExpenseEntry` dataclass as stored in the `expenses` table. -/
structure ExpenseEntry where
  id : Nat
  date : String
  category : String
  amount : ℚ
  description : String := ""
  «alias» : String := ""
  deriving DecidableEq, Repr

/-- The `BudgetLimit` dataclass as stored in the `budget_limits` table
(`category` is UNIQUE in the schema). -/
structure BudgetLimit where
  id : Nat
  category : String
  monthly_limit : ℚ
  description : String := ""
  deriving DecidableEq, Repr

/-- The three tables of budget.py's SQLite database. -/
structure BudgetDb where
  income : List IncomeEntry := []
  expenses : List ExpenseEntry := []
  budget_limits : List BudgetLimit := []
  deriving DecidableEq, Repr

/-- SQLite BINARY comparison `a <= b` on TEXT values: lexicographic on
code points, which for the ASCII strings used here is byte order. -/
def charListLe (a b : List Char) : Bool :=
  match a, b with
  | [], _ => true
  | _ :: _, [] => false
  | x :: xs, y :: ys => if x = y then charListLe xs ys else decide (x < y)

/-- `a <= b` on strings under SQLite's BINARY collation. -/
def strLe (a b : String) : Bool :=
  charListLe a.data b.data

/-- Zero-padded two-digit decimal formatting, Python's 02d format. -/
def pad2 (n : Nat) : String :=
  if n < 10 then "0" ++ toString n else toString n

/-- The start-date string year-month-01 built by the monthly-total
functions of budget.py. -/
def month_start_date (year month : Nat) : String :=
  toString year ++ "-" ++ pad2 month ++ "-01"

/-- The `end_date` string of the same functions: first day of the next
month, with December rolling into January of the next year. -/
def month_end_date (year month : Nat) : String :=
  if month = 12 then toString (year + 1) ++ "-01-01"
  else toString year ++ "-" ++ pad2 (month + 1) ++ "-01"

/-- The `ORDER BY date DESC` relation on income rows. -/
def incDateDesc (a b : IncomeEntry) : Prop :=
  charListLe b.date.data a.date.data = true

instance : DecidableRel incDateDesc := fun _ _ => instDecidableEqBool _ _

/-- The `ORDER BY date DESC` relation on expense rows. -/
def expDateDesc (a b : ExpenseEntry) : Prop :=
  charListLe b.date.data a.date.data = true

instance : DecidableRel expDateDesc := fun _ _ => instDecidableEqBool _ _

/-- Embedding of `BudgetManager.get_income_by_date_range` (budget.py lines 329-355):
`WHERE date >= ? AND date <= ? ORDER BY date DESC, created_at DESC`.
Note that both endpoints are included by the SQL comparison. -/
def get_income_by_date_range (start_date end_date : String) (db : BudgetDb) :
    List IncomeEntry :=
  List.insertionSort incDateDesc
    (db.income.filter fun e => strLe start_date e.date && strLe e.date end_date)

/-- Embedding of `BudgetManager.get_expenses_by_date_range` (budget.py lines 487-513). -/
def get_expenses_by_date_range (start_date end_date : String) (db : BudgetDb) :
    List ExpenseEntry :=
  List.insertionSort expDateDesc
    (db.expenses.filter fun e => strLe start_date e.date && strLe e.date end_date)

/-- Embedding of `BudgetManager.get_total_income_by_month` (budget.py lines 357-366). -/
def get_total_income_by_month (year month : Nat) (db : BudgetDb) : ℚ :=
  ((get_income_by_date_range (month_start_date year month) (month_end_date year month)
      db).map IncomeEntry.amount).sum

/-- Embedding of `BudgetManager.get_total_expenses_by_month` (budget.py lines 515-524). -/
def get_total_expenses_by_month (year month : Nat) (db : BudgetDb) : ℚ :=
  ((get_expenses_by_date_range (month_start_date year month) (month_end_date year month)
      db).map ExpenseEntry.amount).sum

/-- Embedding of `BudgetManager.get_expenses_by_category_and_month`
(budget.py lines 526-535): the month's rows filtered by category, amounts
summed. -/
def get_expenses_by_category_and_month (category : String) (year month : Nat)
    (db : BudgetDb) : ℚ :=
  (((get_expenses_by_date_range (month_start_date year month) (month_end_date year month)
      db).filter fun e => decide (e.category = category)).map ExpenseEntry.amount).sum

/-- The `ORDER BY category` relation on budget-limit rows. -/
def limitCatLe (a b : BudgetLimit) : Prop :=
  charListLe a.category.data b.category.data = true

instance : DecidableRel limitCatLe := fun _ _ => instDecidableEqBool _ _

/-- Embedding of `BudgetManager.get_all_budget_limits` (budget.py lines 712-732). -/
def get_all_budget_limits (db : BudgetDb) : List BudgetLimit :=
  List.insertionSort limitCatLe db.budget_limits

/-- One value of the status dict built by `get_budget_status`. -/
structure CategoryStatus where
  limit : ℚ
  spent : ℚ
  remaining : ℚ
  percentage_used : ℚ
  is_over_budget : Bool
  deriving DecidableEq, Repr

/-- Embedding of `BudgetManager.get_budget_status` (budget.py lines 767-790): one status
record per configured budget limit, keyed by its (unique) category. -/
def get_budget_status (year month : Nat) (db : BudgetDb) :
    List (String × CategoryStatus) :=
  (get_all_budget_limits db).map fun bl =>
    let spent := get_expenses_by_category_and_month bl.category year month db
    (bl.category,
      { limit := bl.monthly_limit,
        spent := spent,
        remaining := bl.monthly_limit - spent,
        percentage_used := if (0 : ℚ) < bl.monthly_limit then spent / bl.monthly_limit * 100 else 0,
        is_over_budget := decide (bl.monthly_limit < spent) })

/-! ## budget.py: delete operations -/

/-- The errors of `delete_income` / `delete_expense`: the `KeyError` for a
missing id and the `AssertionError` "Multiple rows deleted". -/
inductive DeleteError where
  | entryNotFound
  | multipleRowsDeleted
  deriving DecidableEq, Repr

/-- Embedding of `BudgetManager.delete_income` (budget.py lines 257-303): fetch the
first row matching the id, issue `DELETE ... WHERE id = ?` (committed),
assert that at most one row was removed, return the removed entry, else
raise `KeyError`.  The second component is the table after the `DELETE`.
The inner `none` branch is unreachable: one deleted row implies the
`SELECT` found it. -/
def delete_income (id_input : Nat) (db : List IncomeEntry) :
    Except DeleteError IncomeEntry × List IncomeEntry :=
  let deleted_row := db.find? fun r => decide (r.id = id_input)
  let db2 := db.filter fun r => !decide (r.id = id_input)
  let n := db.countP fun r => decide (r.id = id_input)
  if 1 < n then (.error .multipleRowsDeleted, db2)
  else if n = 1 then
    match deleted_row with
    | some r => (.ok r, db2)
    | none => (.error .entryNotFound, db2)
  else (.error .entryNotFound, db2)

/-- Embedding of `BudgetManager.delete_expense` (budget.py lines 391-437): identical to
`delete_income` on the `expenses` table. -/
def delete_expense (id_input : Nat) (db : List ExpenseEntry) :
    Except DeleteError ExpenseEntry × List ExpenseEntry :=
  let deleted_row := db.find? fun r => decide (r.id = id_input)
  let db2 := db.filter fun r => !decide (r.id = id_input)
  let n := db.countP fun r => decide (r.id = id_input)
  if 1 < n then (.error .multipleRowsDeleted, db2)
  else if n = 1 then
    match deleted_row with
    | some r => (.ok r, db2)
    | none => (.error .entryNotFound, db2)
  else (.error .entryNotFound, db2)

/-! ## budget.py: reindex_table -/

/-- The `ORDER BY id ASC` relation on rows `(old id, other columns)`. -/
def rowIdLe {α : Type} (a b : Nat × α) : Prop :=
  a.1 ≤ b.1

instance {α : Type} : DecidableRel (@rowIdLe α) := fun a b => Nat.decLe a.1 b.1

instance {α : Type} : IsTotal (Nat × α) rowIdLe :=
  ⟨fun a b => Nat.le_total a.1 b.1⟩

instance {α : Type} : IsTrans (Nat × α) rowIdLe :=
  ⟨fun _ _ _ h1 h2 => Nat.le_trans h1 h2⟩

/-- The committed effect of `BudgetManager.reindex_table` (budget.py lines
174-232) on a table whose rows are `(id, other columns)`: the non-id
columns are copied into a fresh table `ORDER BY id ASC`, and the fresh
table's `AUTOINCREMENT` primary key assigns the sequential ids 1, 2, .... -/
def reindex_table {α : Type} (t : List (Nat × α)) : List (Nat × α) :=
  let sorted := List.insertionSort rowIdLe t
  List.zipWith (fun i row => (i, row.2)) (List.range' 1 t.length) sorted

/-- The transaction wrapper of `reindex_table`: all steps run inside
`BEGIN TRANSACTION`; on any `sqlite3.Error` the connection rolls the
transaction back and a `ValueError` is raised, leaving the table as it
was; otherwise the commit installs the re-indexed table. -/
def reindex_table_transaction {α : Type} (failure : Option String) (t : List (Nat × α)) :
    Except String (List (Nat × α)) × List (Nat × α) :=
  match failure with
  | some e => (.error ("Database error during re-indexing: " ++ e), t)
  | none => (.ok (reindex_table t), reindex_table t)

/-! ## budget.py / main.py: search -/

/-- SQLite `LIKE` with the default ASCII-case-insensitive comparison:
`%` matches any run of characters, `_` any single character.  The first
argument is the pattern.  `fuel` is a structural bound on the recursion;
each step consumes at least one character of pattern or text, so
`pattern.length + text.length + 1` always suffices. -/
def likeMatchFuel : Nat → List Char → List Char → Bool
  | 0, _, _ => false
  | _ + 1, [], t => t.isEmpty
  | f + 1, '%' :: p2, t =>
    likeMatchFuel f p2 t ||
      (match t with
       | [] => false
       | _ :: t2 => likeMatchFuel f ('%' :: p2) t2)
  | f + 1, '_' :: p2, t =>
    (match t with
     | [] => false
     | _ :: t2 => likeMatchFuel f p2 t2)
  | f + 1, c :: p2, t =>
    (match t with
     | [] => false
     | d :: t2 => (c.toLower = d.toLower) && likeMatchFuel f p2 t2)

/-- SQLite text matching: text LIKE pattern. -/
def likeMatch (p t : List Char) : Bool :=
  likeMatchFuel (p.length + t.length + 1) p t

/-- Lower-casing as done by Python str.lower and SQL LOWER on the ASCII
data used here. -/
def strLower (s : String) : String :=
  ⟨s.data.map Char.toLower⟩

/-- Embedding of `BudgetManager.search_entries` (budget.py lines 838-889): its only
parameter besides `self` is `query`; income rows are matched with
`LOWER(source) LIKE %query_lower% OR LOWER(description) LIKE ...`,
expense rows with `LOWER(category) LIKE ... OR LOWER(description) LIKE
...`, each `ORDER BY date DESC`. -/
def search_entries (query : String) (db : BudgetDb) :
    List IncomeEntry × List ExpenseEntry :=
  let query_lower := strLower query
  let pat := ("%" ++ query_lower ++ "%").data
  let matching_income := List.insertionSort incDateDesc
    (db.income.filter fun r =>
      likeMatch pat (strLower r.source).data || likeMatch pat (strLower r.description).data)
  let matching_expenses := List.insertionSort expDateDesc
    (db.expenses.filter fun r =>
      likeMatch pat (strLower r.category).data || likeMatch pat (strLower r.description).data)
  (matching_income, matching_expenses)

/-- Test whether `needle` is a prefix of `hay`. -/
def isPrefixList (needle hay : List Char) : Bool :=
  match needle, hay with
  | [], _ => true
  | _ :: _, [] => false
  | a :: as, b :: bs => a == b && isPrefixList as bs

/-- Substring containment on character lists. -/
def containsSub (needle hay : List Char) : Bool :=
  match hay with
  | [] => needle.isEmpty
  | _ :: t => isPrefixList needle hay || containsSub needle t

/-- Modelled from the spec: the search operation described as
`search(query, exclude=false)` with `exclude=true` inverting the same
case-insensitive substring predicate.  `BudgetTrackerCLI.search_entries`
(main.py line 792) invokes `search_entries(query, exclude=exclude)`, but
no `exclude` parameter exists on `BudgetManager.search_entries`; this
definition captures the behaviour the spec and the CLI caller describe,
for comparison with the code's `search_entries` above. -/
def search_entries_with_exclude (query : String) (exclude : Bool) (db : BudgetDb) :
    List IncomeEntry × List ExpenseEntry :=
  let ql := (strLower query).data
  let incMatch : IncomeEntry → Bool := fun r =>
    containsSub ql (strLower r.source).data || containsSub ql (strLower r.description).data
  let expMatch : ExpenseEntry → Bool := fun r =>
    containsSub ql (strLower r.category).data || containsSub ql (strLower r.description).data
  (List.insertionSort incDateDesc
      (db.income.filter fun r => if exclude then !incMatch r else incMatch r),
   List.insertionSort expDateDesc
      (db.expenses.filter fun r => if exclude then !expMatch r else expMatch r))

/-! ## Concrete stores used in the closed statements below -/

/-- The ten decimal digit characters. -/
def digitChars : List Char := ['0', '1', '2', '3', '4', '5', '6', '7', '8', '9']

/-- A database with expenses and income on the January 2023 month
boundary: entries on the first of January and on the first of February. -/
def boundary_db : BudgetDb :=
  { expenses := [⟨1, "2023-01-01", "Food", 5, "", ""⟩,
                 ⟨2, "2023-01-15", "Food", 7, "", ""⟩,
                 ⟨3, "2023-02-01", "Food", 100, "", ""⟩],
    income := [⟨1, "2023-01-01", "Salary", 30, "", ""⟩,
               ⟨2, "2023-02-01", "Salary", 1000, "", ""⟩] }

/-- A database with two expense rows, one matching the query "food". -/
def search_db : BudgetDb :=
  { expenses := [⟨1, "2023-01-02", "Food", 10, "groceries", ""⟩,
                 ⟨2, "2023-01-03", "Rent", 500, "january rent", ""⟩] }

/-- A goal whose id matches no stored row in the stores below. -/
def orphan_goal : SavingsGoal :=
  { id := some 1, name := "Vacation", target_amount := 100, current_amount := 0,
    target_date := "2026-01-01", category := "Travel", created_date := "2025-01-01" }

/-- A stored goal with id 2, distinct from `orphan_goal`. -/
def other_goal : SavingsGoal :=
  { id := some 2, name := "Laptop", target_amount := 900, current_amount := 100,
    target_date := "2026-06-01", category := "Gadgets", created_date := "2025-02-01" }

/-- A goal store with a single goal 10 away from its target. -/
def progress_db : List SavingsGoal :=
  [{ id := some 1, name := "Trip", target_amount := 100, current_amount := 90,
     target_date := "2025-12-31", category := "Travel", created_date := "2025-01-01" }]

/-- An income table with one row, id 3. -/
def income_db : List IncomeEntry :=
  [⟨3, "2023-03-01", "Salary", 1200, "", ""⟩]

/-- An expense table with one row, id 4. -/
def expense_db : List ExpenseEntry :=
  [⟨4, "2023-03-02", "Rent", 800, "", ""⟩]

/-- A database with a zero-limit budget category that has spending. -/
def zero_limit_db : BudgetDb :=
  { expenses := [⟨1, "2023-01-05", "Food", 50, "", ""⟩],
    budget_limits := [⟨1, "Food", 0, ""⟩] }

/-! ## Helper lemmas -/

theorem countP_add_countP_not {α : Type} (p : α → Bool) (l : List α) :
    l.countP p + l.countP (fun a => !p a) = l.length := by
  induction l with
  | nil => rfl
  | cons a t ih =>
    by_cases h : p a = true
    · simp [List.countP_cons, h, ← ih]; omega
    · simp only [List.countP_cons, h, Bool.not_eq_true] at *
      simp [h, ← ih]; omega

theorem takeWhile_eq_self_of_all {p : Char → Bool} :
    ∀ l : List Char, (∀ c ∈ l, p c = true) → l.takeWhile p = l := by
  intro l h
  induction l with
  | nil => rfl
  | cons a t ih =>
    rw [List.takeWhile_cons, h a (List.mem_cons_self a t)]
    simp [ih fun c hc => h c (List.mem_cons_of_mem a hc)]

theorem dropWhile_eq_nil_of_all {p : Char → Bool} :
    ∀ l : List Char, (∀ c ∈ l, p c = true) → l.dropWhile p = [] := by
  intro l h
  induction l with
  | nil => rfl
  | cons a t ih =>
    rw [List.dropWhile_cons, h a (List.mem_cons_self a t)]
    simp [ih fun c hc => h c (List.mem_cons_of_mem a hc)]

theorem dropWhile_eq_self_of_none {p : Char → Bool} :
    ∀ l : List Char, (∀ c ∈ l, p c = false) → l.dropWhile p = l := by
  intro l h
  cases l with
  | nil => rfl
  | cons a t => rw [List.dropWhile_cons, h a (List.mem_cons_self a t)]; simp

theorem takeWhile_append_of_all {p : Char → Bool} :
    ∀ (l1 l2 : List Char), (∀ c ∈ l1, p c = true) →
      (l1 ++ l2).takeWhile p = l1 ++ l2.takeWhile p := by
  intro l1 l2 h
  induction l1 with
  | nil => rfl
  | cons a t ih =>
    rw [List.cons_append, List.takeWhile_cons, h a (List.mem_cons_self a t)]
    simp [ih fun c hc => h c (List.mem_cons_of_mem a hc), List.cons_append]

theorem dropWhile_append_of_all {p : Char → Bool} :
    ∀ (l1 l2 : List Char), (∀ c ∈ l1, p c = true) →
      (l1 ++ l2).dropWhile p = l2.dropWhile p := by
  intro l1 l2 h
  induction l1 with
  | nil => rfl
  | cons a t ih =>
    rw [List.cons_append, List.dropWhile_cons, h a (List.mem_cons_self a t)]
    simp [ih fun c hc => h c (List.mem_cons_of_mem a hc)]

theorem pyStrip_eq_self (s : String) (h : ∀ c ∈ s.data, isPySpace c = false) :
    pyStrip s = s := by
  unfold pyStrip
  rw [dropWhile_eq_self_of_none s.data h,
      dropWhile_eq_self_of_none s.data.reverse (fun c hc => h c (List.mem_reverse.mp hc)),
      List.reverse_reverse]

theorem digit_isDigit {c : Char} (h : c ∈ digitChars) : c.isDigit = true := by
  fin_cases h <;> decide

theorem digit_not_stripped {c : Char} (h : c ∈ digitChars) : isStrippedChar c = false := by
  fin_cases h <;> decide

theorem digit_not_space {c : Char} (h : c ∈ digitChars) : isPySpace c = false := by
  fin_cases h <;> decide

theorem readSign_digit (d : Char) (tl : List Char) (hd : d ∈ digitChars) :
    readSign (d :: tl) = (false, d :: tl) := by
  have h1 : d ≠ '-' := by intro h; subst h; exact absurd hd (by decide)
  have h2 : d ≠ '+' := by intro h; subst h; exact absurd hd (by decide)
  simp [readSign, h1, h2]

theorem pyFloatCore_digits (ds : List Char) (hne : ds ≠ [])
    (hd : ∀ c ∈ ds, c ∈ digitChars) :
    pyFloatCore ds = some ((natOfDigits ds : ℚ)) := by
  obtain ⟨d, tl, rfl⟩ : ∃ d tl, ds = d :: tl := by
    cases ds with
    | nil => exact absurd rfl hne
    | cons d tl => exact ⟨d, tl, rfl⟩
  have hall : ∀ c ∈ d :: tl, Char.isDigit c = true := fun c hc => digit_isDigit (hd c hc)
  simp only [pyFloatCore, readSign_digit d tl (hd d (List.mem_cons_self d tl)),
    takeWhile_eq_self_of_all _ hall, dropWhile_eq_nil_of_all _ hall]
  simp [parseExp]

theorem pyFloatCore_digits_dot (ip fp : List Char) (hne : ip ≠ [])
    (hip : ∀ c ∈ ip, c ∈ digitChars) (hfp : ∀ c ∈ fp, c ∈ digitChars) :
    pyFloatCore (ip ++ '.' :: fp) =
      some ((natOfDigits ip : ℚ) + (natOfDigits fp : ℚ) / 10 ^ fp.length) := by
  obtain ⟨d, tl, rfl⟩ : ∃ d tl, ip = d :: tl := by
    cases ip with
    | nil => exact absurd rfl hne
    | cons d tl => exact ⟨d, tl, rfl⟩
  have hallip : ∀ c ∈ d :: tl, Char.isDigit c = true := fun c hc => digit_isDigit (hip c hc)
  have hallfp : ∀ c ∈ fp, Char.isDigit c = true := fun c hc => digit_isDigit (hfp c hc)
  have hsign : readSign ((d :: tl) ++ '.' :: fp) = (false, (d :: tl) ++ '.' :: fp) := by
    rw [List.cons_append]
    exact readSign_digit d (tl ++ '.' :: fp) (hip d (List.mem_cons_self d tl))
  have htake : ((d :: tl) ++ '.' :: fp).takeWhile Char.isDigit = d :: tl := by
    rw [takeWhile_append_of_all _ _ hallip, List.takeWhile_cons]
    simp
  have hdrop : ((d :: tl) ++ '.' :: fp).dropWhile Char.isDigit = '.' :: fp := by
    rw [dropWhile_append_of_all _ _ hallip, List.dropWhile_cons]
    simp
  simp only [pyFloatCore, hsign, htake, hdrop,
    takeWhile_eq_self_of_all _ hallfp, dropWhile_eq_nil_of_all _ hallfp]
  simp [parseExp]

/-! ## Claim C8 -/

/-- Claim C8: for every valid amount string, `parse_amount` returns the
numeric value obtained after stripping currency symbols, thousands
separators and whitespace; `parse_amount ""` fails with the empty-amount
error; and `parse_amount "$3.500.75"` fails with the invalid-format error
— ambiguous thousands/decimal punctuation is rejected, not guessed. -/
theorem parse_amount_spec :
    (∀ (s : String) (v : ℚ), s ≠ "" → pyFloat (cleanAmount s) = some v →
        parse_amount s = Except.ok v) ∧
    parse_amount "" = Except.error AmountError.emptyAmount ∧
    parse_amount "$3.500.75" = Except.error (AmountError.invalidFormat "$3.500.75") := by
  refine ⟨?_, rfl, ?_⟩
  · intro s v hs hv
    unfold parse_amount
    rw [if_neg hs, hv]
  · have h : pyFloat (cleanAmount "$3.500.75") = none := by decide
    unfold parse_amount
    rw [if_neg (by decide : ¬("$3.500.75" : String) = ""), h]

/-- Witness for C8: the valid amount string from the spec's example,
with its stripped numeric value 3500.75. -/
theorem parse_amount_spec_witness :
    (("$3,500.75" : String) ≠ "" ∧
      pyFloat (cleanAmount "$3,500.75") = some (3500.75 : ℚ)) ∧
    parse_amount "$3,500.75" = Except.ok (3500.75 : ℚ) := by
  have h1 : ("$3,500.75" : String) ≠ "" := by decide
  have h2 : pyFloat (cleanAmount "$3,500.75") = some (3500.75 : ℚ) := by
    have hc : cleanAmount "$3,500.75" = "3500.75" := by decide
    rw [hc]
    show pyFloatCore (pyStrip "3500.75").data = _
    rw [(by decide : pyStrip "3500.75" = "3500.75"),
        (by decide : ("3500.75" : String).data = ['3', '5', '0', '0'] ++ '.' :: ['7', '5']),
        pyFloatCore_digits_dot _ _ (by decide) (by decide) (by decide),
        (by decide : natOfDigits ['3', '5', '0', '0'] = 3500),
        (by decide : natOfDigits ['7', '5'] = 75),
        (by decide : (['7', '5'] : List Char).length = 2)]
    norm_num
  exact ⟨⟨h1, h2⟩, parse_amount_spec.1 "$3,500.75" (3500.75 : ℚ) h1 h2⟩

/-! ## Claim C10 -/

/-- Claim C10: `parse_amount` and `validate_amount` strip commas wherever
they occur without checking separator placement: for every string of
decimal digits interleaved with commas at arbitrary positions (with at
least one digit), `parse_amount` returns the number formed by the
remaining digits and `validate_amount` returns true — misplaced thousands
separators are silently accepted rather than rejected. -/
theorem parse_amount_commas_spec (s : String)
    (h1 : s.data ≠ [])
    (h2 : ∀ c ∈ s.data, c ∈ digitChars ∨ c = ',')
    (h3 : ∃ c ∈ s.data, c ∈ digitChars) :
    parse_amount s = Except.ok ((natOfDigits (s.data.filter Char.isDigit) : ℚ)) ∧
    validate_amount s = true := by
  have hs : s ≠ "" := fun h => h1 (by rw [h])
  have hnospace : ∀ c ∈ s.data, isPySpace c = false := by
    intro c hc
    rcases h2 c hc with h | h
    · exact digit_not_space h
    · subst h; decide
  have hclean : (cleanAmount s).data = s.data.filter Char.isDigit := by
    unfold cleanAmount
    rw [pyStrip_eq_self s hnospace]
    show s.data.filter (fun c => !(isStrippedChar c)) = s.data.filter Char.isDigit
    refine List.filter_congr ?_
    intro c hc
    rcases h2 c hc with h | h
    · rw [digit_not_stripped h, digit_isDigit h]; rfl
    · subst h; decide
  have hdigits : ∀ c ∈ (cleanAmount s).data, c ∈ digitChars := by
    intro c hc
    rw [hclean] at hc
    have hm := List.mem_filter.mp hc
    rcases h2 c hm.1 with h | h
    · exact h
    · subst h; exact absurd hm.2 (by decide)
  have hcne : (cleanAmount s).data ≠ [] := by
    rw [hclean]
    obtain ⟨c, hc, hcd⟩ := h3
    intro hnil
    have hmem : c ∈ s.data.filter Char.isDigit :=
      List.mem_filter.mpr ⟨hc, digit_isDigit hcd⟩
    rw [hnil] at hmem
    exact absurd hmem (List.not_mem_nil c)
  have key : pyFloat (cleanAmount s) =
      some ((natOfDigits (s.data.filter Char.isDigit) : ℚ)) := by
    unfold pyFloat
    rw [pyStrip_eq_self _ (fun c hc => digit_not_space (hdigits c hc)),
        pyFloatCore_digits _ hcne hdigits, hclean]
  constructor
  · unfold parse_amount
    rw [if_neg hs, key]
  · unfold validate_amount
    rw [key]
    exact decide_eq_true (by positivity)

/-- Witness for C10: the misplaced-separator string from the claim. -/
theorem parse_amount_commas_spec_witness :
    parse_amount "1,2,3" = Except.ok (123 : ℚ) ∧ validate_amount "1,2,3" = true := by
  have h := parse_amount_commas_spec "1,2,3" (by decide) (by decide) (by decide)
  refine ⟨?_, h.2⟩
  rw [h.1, (by decide : natOfDigits (("1,2,3" : String).data.filter Char.isDigit) = 123)]
  norm_num

/-! ## Claim C9 -/

/-- Claim C9: for every goal store and every amount at most 0,
`add_progress` fails with the validation error "Progress amount must be
positive" and leaves the store unchanged. -/
theorem add_progress_nonpositive_spec (db : List SavingsGoal) (goal_id : Nat)
    (amount : ℚ) (h : amount ≤ 0) :
    add_progress goal_id amount db = (.error .invalidAmount, db) := by
  unfold add_progress
  rw [if_pos h]

/-- Witness for C9: adding -5 to the stored goal fails and changes nothing. -/
theorem add_progress_nonpositive_spec_witness :
    ((-5 : ℚ) ≤ 0) ∧
    add_progress 1 (-5) progress_db = (.error .invalidAmount, progress_db) := by
  have h : (-5 : ℚ) ≤ 0 := by norm_num
  exact ⟨h, add_progress_nonpositive_spec progress_db 1 (-5) h⟩

/-! ## Goal store lemmas -/

theorem find?_map_ite (db : List SavingsGoal) (gid : Nat) (f : SavingsGoal → SavingsGoal)
    (hf : ∀ r, (f r).id = r.id) :
    ((db.map fun r => if r.id = some gid then f r else r).find?
        fun g => decide (g.id = some gid)) =
      (db.find? fun g => decide (g.id = some gid)).map f := by
  induction db with
  | nil => rfl
  | cons a l ih =>
    rw [List.map_cons]
    by_cases h : a.id = some gid
    · simp [List.find?_cons, h, hf]
    · simp [List.find?_cons, h, ih]

theorem map_ite_id (db : List SavingsGoal) (gid : Nat) (f : SavingsGoal → SavingsGoal)
    (h : ∀ r ∈ db, r.id ≠ some gid) :
    (db.map fun r => if r.id = some gid then f r else r) = db := by
  induction db with
  | nil => rfl
  | cons a l ih =>
    rw [List.map_cons, if_neg (h a (List.mem_cons_self a l)),
        ih fun r hr => h r (List.mem_cons_of_mem a hr)]

/-! ## Claim C3 -/

/-- Claim C3: for every stored goal and every positive amount,
`add_progress` increments the goal's current amount by the amount; when
the result reaches or exceeds the target, the goal is marked completed
and its current amount is capped at exactly the target, even when the
addition would have overshot it.  (`gid ≠ 0` holds for every row the
SQLite `AUTOINCREMENT` key can produce.) -/
theorem update_goal_found (g2 : SavingsGoal) (db : List SavingsGoal) (gid : Nat)
    (hid : g2.id = some gid) (h0 : gid ≠ 0)
    (hex : 0 < db.countP fun r => decide (r.id = some gid)) :
    (update_goal g2 db).1 = .ok true ∧
    (update_goal g2 db).2 = db.map fun r =>
      if r.id = some gid then
        { r with
          name := g2.name,
          target_amount := g2.target_amount,
          current_amount := g2.current_amount,
          target_date := g2.target_date,
          category := g2.category,
          description := g2.description,
          is_completed := g2.is_completed }
      else r := by
  unfold update_goal
  rw [hid]
  constructor
  · show ((if gid = 0 then _ else _ : Except GoalError Bool × List SavingsGoal)).1 = _
    rw [if_neg h0]
    show Except.ok (decide (0 < db.countP fun r => decide (r.id = some gid))) = Except.ok true
    rw [decide_eq_true hex]
  · show ((if gid = 0 then _ else _ : Except GoalError Bool × List SavingsGoal)).2 = _
    rw [if_neg h0]

theorem add_progress_spec (db : List SavingsGoal) (gid : Nat) (g : SavingsGoal) (a : ℚ)
    (hgid : gid ≠ 0) (ha : 0 < a) (hg : get_goal_by_id gid db = some g) :
    (add_progress gid a db).1 = .ok true ∧
    get_goal_by_id gid (add_progress gid a db).2 =
      some (if g.target_amount ≤ g.current_amount + a then
              { g with current_amount := g.target_amount, is_completed := true }
            else { g with current_amount := g.current_amount + a }) := by
  have hg' : db.find? (fun r => decide (r.id = some gid)) = some g := hg
  have hdec := List.find?_some hg'
  have hid : g.id = some gid := of_decide_eq_true hdec
  have hmem : g ∈ db := List.mem_of_find?_eq_some hg'
  have hna : ¬ a ≤ 0 := not_le.mpr ha
  set G2 := if g.target_amount ≤ g.current_amount + a then
              { g with current_amount := g.target_amount, is_completed := true }
            else { g with current_amount := g.current_amount + a } with hG2
  have hG2id : G2.id = some gid := by
    rw [hG2]; split <;> exact hid
  have hstep : add_progress gid a db = update_goal G2 db := by
    unfold add_progress
    rw [if_neg hna, hg]
  have hcount : 0 < db.countP fun r => decide (r.id = some gid) :=
    List.countP_pos_iff.mpr ⟨g, hmem, decide_eq_true hid⟩
  obtain ⟨h1, h2⟩ := update_goal_found G2 db gid hG2id hgid hcount
  refine ⟨by rw [hstep, h1], ?_⟩
  rw [hstep]
  unfold get_goal_by_id
  rw [h2, find?_map_ite db gid
        (fun r => { r with
          name := G2.name,
          target_amount := G2.target_amount,
          current_amount := G2.current_amount,
          target_date := G2.target_date,
          category := G2.category,
          description := G2.description,
          is_completed := G2.is_completed })
        (fun r => rfl), hg']
  show some ({ g with
      name := G2.name,
      target_amount := G2.target_amount,
      current_amount := G2.current_amount,
      target_date := G2.target_date,
      category := G2.category,
      description := G2.description,
      is_completed := G2.is_completed } : SavingsGoal) = some G2
  congr 1
  by_cases hcap : g.target_amount ≤ g.current_amount + a
  · rw [hG2, if_pos hcap]
  · rw [hG2, if_neg hcap]

/-- Witness for C3: adding 20 to a goal at 90 of 100 overshoots the
target; the stored goal ends at exactly 100 and completed. -/
theorem add_progress_spec_witness :
    (add_progress 1 20 progress_db).1 = .ok true ∧
    get_goal_by_id 1 (add_progress 1 20 progress_db).2 =
      some { id := some 1, name := "Trip", target_amount := 100, current_amount := 100,
             target_date := "2025-12-31", category := "Travel", description := "",
             is_completed := true, created_date := "2025-01-01" } := by
  have hg : get_goal_by_id 1 progress_db =
      some { id := some 1, name := "Trip", target_amount := 100, current_amount := 90,
             target_date := "2025-12-31", category := "Travel", description := "",
             is_completed := false, created_date := "2025-01-01" } := rfl
  have h := add_progress_spec progress_db 1 _ 20 (by decide) (by norm_num) hg
  refine ⟨h.1, ?_⟩
  rw [h.2, if_pos (by norm_num : (100 : ℚ) ≤ 90 + 20)]

/-! ## Claim C5 -/

/-- Counterexample for C5: updating a goal whose id matches no stored row
returns normally with the value `false`; no error is raised. -/
theorem update_goal_not_found_cex :
    update_goal orphan_goal [] = (.ok false, []) := rfl

/-- Claim C5 as amended: for every goal whose id is set (and nonzero, as
all stored ids are) but matches no stored row, `update_goal` returns
`False` and leaves the store unchanged, signalling the failure through
its boolean return value rather than raising a not-found error. -/
theorem update_goal_not_found_spec (db : List SavingsGoal) (g : SavingsGoal) (gid : Nat)
    (hid : g.id = some gid) (h0 : gid ≠ 0) (hnone : ∀ r ∈ db, r.id ≠ some gid) :
    update_goal g db = (.ok false, db) := by
  unfold update_goal
  rw [hid]
  show (if gid = 0 then _ else _ : Except GoalError Bool × List SavingsGoal) = _
  rw [if_neg h0]
  have hc : (db.countP fun r => decide (r.id = some gid)) = 0 :=
    List.countP_eq_zero.mpr fun r hr => by simpa using hnone r hr
  rw [map_ite_id db gid _ hnone, hc]
  rfl

/-- Witness for the amended C5: a store holding only goal 2, updated with
a goal carrying id 1. -/
theorem update_goal_not_found_spec_witness :
    update_goal orphan_goal [other_goal] = (.ok false, [other_goal]) := by
  exact update_goal_not_found_spec [other_goal] orphan_goal 1 rfl (by decide) (by decide)

/-! ## Claim C6 -/

/-- Claim C6: deleting a nonexistent id from the income or expense table
fails with the not-found `KeyError` and leaves the table unmodified; a
successful delete removes exactly one row; and whenever two or more rows
match an id (an internal consistency violation), the `assert` fires
instead of the deletion being silently tolerated. -/
theorem delete_entry_spec :
    (∀ (db : List IncomeEntry) (i : Nat), (∀ r ∈ db, r.id ≠ i) →
        delete_income i db = (.error .entryNotFound, db)) ∧
    (∀ (db : List ExpenseEntry) (i : Nat), (∀ r ∈ db, r.id ≠ i) →
        delete_expense i db = (.error .entryNotFound, db)) ∧
    (∀ (db : List IncomeEntry) (i : Nat) (r : IncomeEntry) (db2 : List IncomeEntry),
        delete_income i db = (.ok r, db2) → db.length = db2.length + 1) ∧
    (∀ (db : List ExpenseEntry) (i : Nat) (r : ExpenseEntry) (db2 : List ExpenseEntry),
        delete_expense i db = (.ok r, db2) → db.length = db2.length + 1) ∧
    (∀ (db : List IncomeEntry) (i : Nat),
        2 ≤ db.countP (fun r => decide (r.id = i)) →
        (delete_income i db).1 = .error .multipleRowsDeleted) ∧
    (∀ (db : List ExpenseEntry) (i : Nat),
        2 ≤ db.countP (fun r => decide (r.id = i)) →
        (delete_expense i db).1 = .error .multipleRowsDeleted) := by
  refine ⟨?_, ?_, ?_, ?_, ?_, ?_⟩
  · intro db i h
    have hc : db.countP (fun r => decide (r.id = i)) = 0 :=
      List.countP_eq_zero.mpr fun r hr => by simpa using h r hr
    have hf : db.filter (fun r => !decide (r.id = i)) = db :=
      List.filter_eq_self.mpr fun r hr => by simpa using h r hr
    simp only [delete_income, hc, hf]
    simp
  · intro db i h
    have hc : db.countP (fun r => decide (r.id = i)) = 0 :=
      List.countP_eq_zero.mpr fun r hr => by simpa using h r hr
    have hf : db.filter (fun r => !decide (r.id = i)) = db :=
      List.filter_eq_self.mpr fun r hr => by simpa using h r hr
    simp only [delete_expense, hc, hf]
    simp
  · intro db i r db2 h
    simp only [delete_income] at h
    by_cases h1 : 1 < db.countP fun r0 => decide (r0.id = i)
    · rw [if_pos h1] at h
      simp at h
    · rw [if_neg h1] at h
      by_cases h2 : (db.countP fun r0 => decide (r0.id = i)) = 1
      · rw [if_pos h2] at h
        cases hfind : db.find? fun r0 => decide (r0.id = i) with
        | none => rw [hfind] at h; simp at h
        | some r0 =>
          rw [hfind] at h
          rw [Prod.mk.injEq] at h
          have hdb2 : db.filter (fun r0 => !decide (r0.id = i)) = db2 := h.2
          have hlen : db2.length = db.countP fun r0 => !decide (r0.id = i) := by
            rw [← hdb2, List.countP_eq_length_filter]
          have hsum := countP_add_countP_not (fun r0 => decide (r0.id = i)) db
          omega
      · rw [if_neg h2] at h
        simp at h
  · intro db i r db2 h
    simp only [delete_expense] at h
    by_cases h1 : 1 < db.countP fun r0 => decide (r0.id = i)
    · rw [if_pos h1] at h
      simp at h
    · rw [if_neg h1] at h
      by_cases h2 : (db.countP fun r0 => decide (r0.id = i)) = 1
      · rw [if_pos h2] at h
        cases hfind : db.find? fun r0 => decide (r0.id = i) with
        | none => rw [hfind] at h; simp at h
        | some r0 =>
          rw [hfind] at h
          rw [Prod.mk.injEq] at h
          have hdb2 : db.filter (fun r0 => !decide (r0.id = i)) = db2 := h.2
          have hlen : db2.length = db.countP fun r0 => !decide (r0.id = i) := by
            rw [← hdb2, List.countP_eq_length_filter]
          have hsum := countP_add_countP_not (fun r0 => decide (r0.id = i)) db
          omega
      · rw [if_neg h2] at h
        simp at h
  · intro db i h
    have h1 : 1 < db.countP fun r => decide (r.id = i) := h
    simp only [delete_income]
    rw [if_pos h1]
  · intro db i h
    have h1 : 1 < db.countP fun r => decide (r.id = i) := h
    simp only [delete_expense]
    rw [if_pos h1]

/-- Witness for C6: deleting id 7 from the one-row income table (row id 3)
and id 9 from the one-row expense table (row id 4) both fail with the
not-found error and leave the tables unchanged; a duplicate-id income
table trips the assertion. -/
theorem delete_entry_spec_witness :
    delete_income 7 income_db = (.error .entryNotFound, income_db) ∧
    delete_expense 9 expense_db = (.error .entryNotFound, expense_db) ∧
    (delete_income 3 [⟨3, "2023-03-01", "Salary", 1200, "", ""⟩,
        ⟨3, "2023-03-05", "Bonus", 100, "", ""⟩]).1 = .error .multipleRowsDeleted := by
  refine ⟨delete_entry_spec.1 income_db 7 (by decide),
          delete_entry_spec.2.1 expense_db 9 (by decide),
          delete_entry_spec.2.2.2.2.1 _ 3 (by decide)⟩

/-! ## Claim C2 -/

theorem zipWith_pair_fst {α : Type} :
    ∀ (l1 : List Nat) (l2 : List (Nat × α)), l1.length = l2.length →
      (List.zipWith (fun i row => (i, row.2)) l1 l2).map Prod.fst = l1 := by
  intro l1
  induction l1 with
  | nil => intro l2 h; rfl
  | cons x xs ih =>
    intro l2 h
    cases l2 with
    | nil => simp at h
    | cons y ys =>
      simp only [List.zipWith_cons_cons, List.map_cons]
      rw [ih ys (by simpa using h)]

theorem zipWith_pair_snd {α : Type} :
    ∀ (l1 : List Nat) (l2 : List (Nat × α)), l1.length = l2.length →
      (List.zipWith (fun i row => (i, row.2)) l1 l2).map Prod.snd = l2.map Prod.snd := by
  intro l1
  induction l1 with
  | nil =>
    intro l2 h
    cases l2 with
    | nil => rfl
    | cons y ys => simp at h
  | cons x xs ih =>
    intro l2 h
    cases l2 with
    | nil => simp at h
    | cons y ys =>
      simp only [List.zipWith_cons_cons, List.map_cons]
      rw [ih ys (by simpa using h)]

/-- Claim C2: `reindex_table` rewrites the primary keys of a table to be
the contiguous sequence 1, 2, ..., n, assigns the new ids in ascending
order of the old ids, preserves every non-id column (the payload sequence
is the old-id-sorted permutation of the original rows), reproduces the
spec's example, and runs all-or-nothing: a transaction that fails leaves
the original table untouched. -/
theorem reindex_table_spec (α : Type) :
    (∀ t : List (Nat × α), (reindex_table t).map Prod.fst = List.range' 1 t.length) ∧
    (∀ t : List (Nat × α), (reindex_table t).map Prod.snd =
        (List.insertionSort rowIdLe t).map Prod.snd) ∧
    (∀ t : List (Nat × α), List.Perm ((reindex_table t).map Prod.snd) (t.map Prod.snd)) ∧
    (∀ t : List (Nat × α), List.Sorted rowIdLe (List.insertionSort rowIdLe t)) ∧
    reindex_table [(5, "A"), (2, "B"), (9, "C")] = [(1, "B"), (2, "A"), (3, "C")] ∧
    (∀ (e : String) (t : List (Nat × α)),
        reindex_table_transaction (some e) t =
          (.error ("Database error during re-indexing: " ++ e), t)) := by
  have hlen : ∀ t : List (Nat × α),
      (List.range' 1 t.length).length = (List.insertionSort rowIdLe t).length := by
    intro t
    rw [List.length_range', (List.perm_insertionSort rowIdLe t).length_eq]
  refine ⟨?_, ?_, ?_, ?_, by decide, fun e t => rfl⟩
  · intro t
    unfold reindex_table
    rw [zipWith_pair_fst _ _ (hlen t)]
  · intro t
    unfold reindex_table
    rw [zipWith_pair_snd _ _ (hlen t)]
  · intro t
    unfold reindex_table
    rw [zipWith_pair_snd _ _ (hlen t)]
    exact (List.perm_insertionSort rowIdLe t).map Prod.snd
  · intro t
    exact List.sorted_insertionSort rowIdLe t

/-! ## Claim C1 -/

/-- Claim C1 (code-bug evidence): the monthly totals use the SQL filter
`date >= start AND date <= end` with `end` set to the first day of the
next month, so an entry dated on that first day is INCLUDED.  On
`boundary_db` the January 2023 expense total is 112 = 5 + 7 + 100,
counting the expense dated 2023-02-01, and the income total is
1030 = 30 + 1000, counting the income dated 2023-02-01 — not the
12 and 30 that the claimed half-open interval would give. -/
theorem monthly_total_boundary_bug :
    get_total_expenses_by_month 2023 1 boundary_db = 112 ∧
    get_total_income_by_month 2023 1 boundary_db = 1030 := by
  constructor
  · have h : get_expenses_by_date_range (month_start_date 2023 1) (month_end_date 2023 1)
        boundary_db =
        [⟨3, "2023-02-01", "Food", 100, "", ""⟩,
         ⟨2, "2023-01-15", "Food", 7, "", ""⟩,
         ⟨1, "2023-01-01", "Food", 5, "", ""⟩] := by decide
    unfold get_total_expenses_by_month
    rw [h]
    simp only [List.map_cons, List.map_nil, List.sum_cons, List.sum_nil]
    norm_num
  · have h : get_income_by_date_range (month_start_date 2023 1) (month_end_date 2023 1)
        boundary_db =
        [⟨2, "2023-02-01", "Salary", 1000, "", ""⟩,
         ⟨1, "2023-01-01", "Salary", 30, "", ""⟩] := by decide
    unfold get_total_income_by_month
    rw [h]
    simp only [List.map_cons, List.map_nil, List.sum_cons, List.sum_nil]
    norm_num

/-! ## Claim C7 -/

/-- Claim C7: `get_budget_status` maps every configured budget limit,
keyed by its category, to a status whose spent is the category's
month total, whose percentage used is spent / limit * 100 with 0 when
the limit is 0, and whose over-budget flag is exactly spent > limit;
in particular a category with limit 0 reports percentage 0 and is over
budget exactly when spent > 0.  Conversely every status entry arises
from a configured limit this way. -/
theorem get_budget_status_spec (year month : Nat) (db : BudgetDb) :
    (∀ bl ∈ get_all_budget_limits db, ∃ st,
        (bl.category, st) ∈ get_budget_status year month db ∧
        st.limit = bl.monthly_limit ∧
        st.spent = get_expenses_by_category_and_month bl.category year month db ∧
        st.remaining = st.limit - st.spent ∧
        st.percentage_used = (if 0 < st.limit then st.spent / st.limit * 100 else 0) ∧
        st.is_over_budget = decide (st.limit < st.spent) ∧
        (st.limit = 0 → st.percentage_used = 0 ∧
            st.is_over_budget = decide (0 < st.spent))) ∧
    (∀ p ∈ get_budget_status year month db, ∃ bl ∈ get_all_budget_limits db,
        p.1 = bl.category ∧ p.2.limit = bl.monthly_limit ∧
        p.2.spent = get_expenses_by_category_and_month bl.category year month db) := by
  constructor
  · intro bl hbl
    refine ⟨{ limit := bl.monthly_limit,
              spent := get_expenses_by_category_and_month bl.category year month db,
              remaining := bl.monthly_limit -
                get_expenses_by_category_and_month bl.category year month db,
              percentage_used := if (0 : ℚ) < bl.monthly_limit then
                  get_expenses_by_category_and_month bl.category year month db /
                    bl.monthly_limit * 100
                else 0,
              is_over_budget := decide (bl.monthly_limit <
                get_expenses_by_category_and_month bl.category year month db) },
      ?_, rfl, rfl, rfl, rfl, rfl, ?_⟩
    · exact List.mem_map_of_mem _ hbl
    · intro h0
      have h0' : bl.monthly_limit = 0 := h0
      constructor
      · show (if (0 : ℚ) < bl.monthly_limit then _ else 0) = 0
        rw [h0', if_neg (lt_irrefl (0 : ℚ))]
      · show decide (bl.monthly_limit < _) = decide ((0 : ℚ) < _)
        rw [h0']
  · intro p hp
    obtain ⟨bl, hbl, heq⟩ := List.mem_map.mp hp
    exact ⟨bl, hbl, by rw [← heq], by rw [← heq], by rw [← heq]⟩

/-- Witness for C7: in `zero_limit_db` the category Food has limit 0 and
one 50-unit expense in January 2023. -/
theorem get_budget_status_spec_witness :
    ∃ st, (("Food", st) ∈ get_budget_status 2023 1 zero_limit_db ∧
      st.limit = (0 : ℚ) ∧
      st.spent = get_expenses_by_category_and_month "Food" 2023 1 zero_limit_db ∧
      st.remaining = st.limit - st.spent ∧
      st.percentage_used = (if 0 < st.limit then st.spent / st.limit * 100 else 0) ∧
      st.is_over_budget = decide (st.limit < st.spent) ∧
      (st.limit = 0 → st.percentage_used = 0 ∧
          st.is_over_budget = decide (0 < st.spent))) := by
  exact (get_budget_status_spec 2023 1 zero_limit_db).1 ⟨1, "Food", 0, ""⟩ (by decide)

/-! ## Claim C4 -/

/-- Claim C4 (code-bug evidence): `BudgetManager.search_entries` takes no
`exclude` parameter — it always returns the rows matching the
case-insensitive substring predicate, here the Food expense for the query
"food" — while the exclusion behaviour that the spec describes and that
`BudgetTrackerCLI.search_entries` requests with `exclude=True` (the
spec-modelled `search_entries_with_exclude`) would return exactly the
non-matching rows, here the Rent expense.  No input of the code's
`search_entries` produces that inverted result, and the CLI's keyword
call itself raises `TypeError` in Python. -/
theorem search_entries_no_exclude :
    (search_entries "food" search_db).1 = [] ∧
    (search_entries "food" search_db).2 =
      [⟨1, "2023-01-02", "Food", 10, "groceries", ""⟩] ∧
    (search_entries_with_exclude "food" false search_db).2 =
      [⟨1, "2023-01-02", "Food", 10, "groceries", ""⟩] ∧
    (search_entries_with_exclude "food" true search_db).2 =
      [⟨2, "2023-01-03", "Rent", 500, "january rent", ""⟩] := by
  exact ⟨by decide, by decide, by decide, by decide⟩

end BudgetTracker









